import Mathlib

/-!
Shallow embedding of the agent components of the repository
`Google-5-day-agents` (Python), covering:

* `ShortTermMemory` (src/Day3_Memory_and_Context/short_term_memory.py and
  src/Capstone_Project/capstone_agent.py): conversation log with a
  `max_history`-based trimming rule and a recent-context query;
* `LongTermMemory` (src/Day3_Memory_and_Context/long_term_memory.py and
  src/Capstone_Project/capstone_agent.py): in-memory user-preference store
  backed by a JSON file;
* `MetricsCollector` (src/Day4_Agent_Quality_and_Debugging/observability.py
  and src/Capstone_Project/capstone_agent.py): counters, latency list,
  per-tag counts, and the `get_stats` snapshot with p50/p95 percentiles;
* `CalculatorTool` / preference extraction / `CapstoneAgent.chat`
  (src/Capstone_Project/capstone_agent.py).

Python floats that only carry latencies and token estimates are modelled as
rationals (ℚ); the claims under study concern indexing, counting and control
flow, not float rounding.  Timestamps (`datetime.now().isoformat()`) are
modelled as opaque strings supplied by the caller.
-/

namespace GoogleAgents

/-- A conversation-history entry, as built by `ShortTermMemory.add_message`:
`{"role": role, "content": content, "timestamp": datetime.now().isoformat()}`. -/
structure Msg where
  role : String
  content : String
  timestamp : String
deriving DecidableEq, Repr

/-- Python's slice `l[-k:]` for a non-negative `k`.  For `k = 0` Python reads
`l[-0:] = l[0:] = l` (negative zero is zero), and for `k > 0` it is the last
`min(k, len(l))` elements. -/
def pySliceLast (k : Nat) (l : List α) : List α :=
  if k = 0 then l else l.drop (l.length - k)

/-- The last `min(n, l.length)` elements of `l`, in order (the intended
"most recent entries" reading of the spec). -/
def lastN (n : Nat) (l : List α) : List α :=
  l.drop (l.length - n)

/-- `ShortTermMemory.add_message` (short_term_memory.py lines 27-43, identical
in capstone_agent.py lines 79-88): append the new entry, then
`if len(h) > max_history * 2: h = h[-max_history * 2:]`. -/
def addMessage (maxHistory : Nat) (h : List Msg) (m : Msg) : List Msg :=
  if (h ++ [m]).length > maxHistory * 2 then pySliceLast (maxHistory * 2) (h ++ [m])
  else h ++ [m]

/-- The history produced by a sequence of `add_message` calls starting from
the empty log built by the constructor. -/
def addAll (maxHistory : Nat) (msgs : List Msg) : List Msg :=
  msgs.foldl (addMessage maxHistory) []

/-- Python's `str.capitalize()` restricted to the ASCII strings the repo uses:
first character uppercased, the rest lowercased. -/
def pyCapitalize (s : String) : String :=
  match s.data with
  | [] => ""
  | c :: cs => ⟨c.toUpper :: cs.map Char.toLower⟩

/-- One line of the rendered context: `f"{msg['role'].capitalize()}: {msg['content']}"`. -/
def renderMsg (m : Msg) : String :=
  pyCapitalize m.role ++ ": " ++ m.content

/-- `"\n".join(...)` over the rendered entries. -/
def renderContext (l : List Msg) : String :=
  String.intercalate "\n" (l.map renderMsg)

/-- `ShortTermMemory.get_recent_context` (short_term_memory.py lines 62-79,
capstone_agent.py lines 90-96): empty string on an empty log, otherwise the
rendering of `h[-num_turns * 2:]`.  The method only reads the history; the
returned pair makes the (unchanged) post-state explicit. -/
def getRecentContext (h : List Msg) (numTurns : Nat) : String × List Msg :=
  if h = [] then ("", h)
  else (renderContext (pySliceLast (numTurns * 2) h), h)

/-! ### Long-term memory (Day 3 and capstone variants)

The store is the `"users"` sub-dictionary of the JSON-backed memory dict,
modelled as an insertion-ordered association list (Python dicts preserve
insertion order).  The other top-level keys of the memory dict
(`"preferences"`, `"conversations"`, `"learned_patterns"`) are never touched
by the operations under study and are omitted.  The durable JSON file is
modelled as `Option` of a store snapshot: `none` when the file does not
exist yet, `some u` once a dump of a store with users `u` succeeded. -/

/-- Insertion-order-preserving update of an association list, as Python's
`d[k] = v`: an existing key keeps its position, a fresh key is appended. -/
def upsert (l : List (String × α)) (k : String) (v : α) : List (String × α) :=
  match l with
  | [] => [(k, v)]
  | (k', v') :: rest => if k' = k then (k, v) :: rest else (k', v') :: upsert rest k v

/-- A user record of the Day 3 `LongTermMemory`
(long_term_memory.py lines 59-63): `{"preferences": {...}, "created_at": ...}`,
plus the `last_updated` key that `save_user_preference` adds. -/
structure D3UserRec where
  prefs : List (String × String)
  createdAt : String
  lastUpdated : Option String
deriving DecidableEq, Repr

/-- In-memory store plus durable-file snapshot for the Day 3 `LongTermMemory`. -/
structure D3State where
  users : List (String × D3UserRec)
  fileUsers : Option (List (String × D3UserRec))
deriving DecidableEq, Repr

/-- `LongTermMemory._save_memory` (long_term_memory.py lines 49-55): dump the
in-memory dict to the file; a failing write is caught and reported, leaving
the file as it was.  `ok` is the outcome of the `open`/`json.dump` attempt. -/
def d3SaveMemory (ok : Bool) (s : D3State) : D3State :=
  if ok then { s with fileUsers := some s.users } else s

/-- `LongTermMemory.get_user_preferences` (long_term_memory.py lines 57-64):
lazily create an empty record (with a `created_at` timestamp `ts`) for an
unseen user, then return that user's `"preferences"` mapping.  The body
contains no `_save_memory` call. -/
def d3GetUserPreferences (s : D3State) (userId ts : String) :
    List (String × String) × D3State :=
  match (s.users.lookup userId).isSome with
  | true => ((s.users.lookup userId).map D3UserRec.prefs |>.getD [], s)
  | false =>
      let users' := s.users ++ [(userId, ⟨[], ts, none⟩)]
      ([], { s with users := users' })

/-- `LongTermMemory.save_user_preference` (long_term_memory.py lines 66-76):
lazily create the record, upsert one preference, stamp `last_updated`, then
persist via `_save_memory` (outcome `ok`). -/
def d3SaveUserPreference (s : D3State) (userId key value ts : String) (ok : Bool) :
    D3State :=
  let users0 :=
    if (s.users.lookup userId).isSome then s.users
    else s.users ++ [(userId, ⟨[], ts, none⟩)]
  let users1 := users0.map fun (u, r) =>
    if u = userId then (u, { r with prefs := upsert r.prefs key value, lastUpdated := some ts })
    else (u, r)
  d3SaveMemory ok { s with users := users1 }

/-- A user record of the capstone `LongTermMemory`
(capstone_agent.py lines 124-135): `{"preferences": {...}}`. -/
structure CapUserRec where
  prefs : List (String × String)
deriving DecidableEq, Repr

/-- In-memory store plus durable-file snapshot for the capstone `LongTermMemory`. -/
structure CapLTM where
  users : List (String × CapUserRec)
  fileUsers : Option (List (String × CapUserRec))
deriving DecidableEq, Repr

/-- Capstone `LongTermMemory._save_memory` (capstone_agent.py lines 116-122). -/
def capSaveMemory (ok : Bool) (s : CapLTM) : CapLTM :=
  if ok then { s with fileUsers := some s.users } else s

/-- Capstone `LongTermMemory.get_user_preferences` (capstone_agent.py
lines 124-128): lazy creation of `{"preferences": {}}`, no save. -/
def capGetUserPreferences (s : CapLTM) (userId : String) :
    List (String × String) × CapLTM :=
  match (s.users.lookup userId).isSome with
  | true => ((s.users.lookup userId).map CapUserRec.prefs |>.getD [], s)
  | false => ([], { s with users := s.users ++ [(userId, ⟨[]⟩)] })

/-- Capstone `LongTermMemory.save_preference` (capstone_agent.py
lines 130-135): lazy creation, upsert one preference, persist. -/
def capSavePreference (s : CapLTM) (userId key value : String) (ok : Bool) : CapLTM :=
  let users0 :=
    if (s.users.lookup userId).isSome then s.users
    else s.users ++ [(userId, ⟨[]⟩)]
  let users1 := users0.map fun (u, r) =>
    if u = userId then (u, ⟨upsert r.prefs key value⟩) else (u, r)
  capSaveMemory ok { s with users := users1 }

/-! ### Metrics collectors (Day 4 and capstone variants)

Latencies are Python floats; they are modelled as rationals since every
claim about them concerns sorting, indexing and counting only. -/

/-- Increment of a `defaultdict(int)` entry: `counts[k] += 1`. -/
def bump (l : List (String × Nat)) (k : String) : List (String × Nat) :=
  match l with
  | [] => [(k, 1)]
  | (k', n) :: rest => if k' = k then (k', n + 1) :: rest else (k', n) :: bump rest k

/-- State of the Day 4 `MetricsCollector` (observability.py lines 21-31). -/
structure D4Metrics where
  requestsTotal : Nat
  requestsSuccess : Nat
  requestsError : Nat
  totalResponseTime : ℚ
  totalTokens : Nat
  errorsByType : List (String × Nat)
  requestTimes : List ℚ
deriving DecidableEq, Repr

/-- The collector as built by `MetricsCollector.__init__`. -/
def d4Init : D4Metrics := ⟨0, 0, 0, 0, 0, [], []⟩

/-- `MetricsCollector.record_request` (observability.py lines 33-45).
Python's `if error_type:` is truthy exactly when the tag is a non-empty
string, modelled via `Option.getD`. -/
def d4RecordRequest (s : D4Metrics) (success : Bool) (responseTime : ℚ)
    (tokens : Nat) (errorType : Option String) : D4Metrics :=
  { s with
    requestsTotal := s.requestsTotal + 1
    totalResponseTime := s.totalResponseTime + responseTime
    totalTokens := s.totalTokens + tokens
    requestTimes := s.requestTimes ++ [responseTime]
    requestsSuccess := if success then s.requestsSuccess + 1 else s.requestsSuccess
    requestsError := if success then s.requestsError else s.requestsError + 1
    errorsByType :=
      if success then s.errorsByType
      else if errorType.getD "" = "" then s.errorsByType
      else bump s.errorsByType (errorType.getD "") }

/-- Python's `sorted(...)` on the latency list (ascending). -/
def pySort (l : List ℚ) : List ℚ := l.insertionSort (· ≤ ·)

/-- The index `int(len(sorted_times) * 0.95)` of observability.py line 58.
For every feasible length `n`, the double product `n * 0.95` lies within
`n · 2⁻⁵⁰` of the exact value `19n/20`; since `19n/20` is either an exact
integer (when `20 ∣ n`, and then the product rounds to exactly that integer)
or at distance ≥ 1/20 from every integer, `int(n * 0.95) = ⌊19n/20⌋`. -/
def p95Index (n : Nat) : Nat := 19 * n / 20

/-- The numeric content of the Day 4 `get_stats` snapshot; the dict wraps
these numbers in format strings (`f"{x:.3f}"` etc.), which carry no further
information used by any claim. -/
structure D4Stats where
  totalRequests : Nat
  successRate : ℚ
  errorRate : ℚ
  avgResponseTime : ℚ
  p50 : ℚ
  p95 : ℚ
  totalTokens : Nat
  errorsByType : List (String × Nat)
deriving DecidableEq, Repr

/-- `MetricsCollector.get_stats` (observability.py lines 47-69): `none`
models the early `{"message": "No requests recorded"}` return. -/
def d4GetStats (s : D4Metrics) : Option D4Stats :=
  if s.requestsTotal = 0 then none
  else
    let sortedTimes := pySort s.requestTimes
    some
      { totalRequests := s.requestsTotal
        successRate := (s.requestsSuccess : ℚ) / (s.requestsTotal : ℚ) * 100
        errorRate := 100 - (s.requestsSuccess : ℚ) / (s.requestsTotal : ℚ) * 100
        avgResponseTime := s.totalResponseTime / (s.requestsTotal : ℚ)
        p50 := if sortedTimes = [] then 0 else sortedTimes.getD (sortedTimes.length / 2) 0
        p95 := if sortedTimes = [] then 0 else sortedTimes.getD (p95Index sortedTimes.length) 0
        totalTokens := s.totalTokens
        errorsByType := s.errorsByType }

/-- The Python method body of `get_stats` contains no assignment to any
field of `self`; its state-passing embedding therefore returns the state
it was given. -/
def d4GetStatsSt (s : D4Metrics) : Option D4Stats × D4Metrics := (d4GetStats s, s)

/-- State of the capstone `MetricsCollector` (capstone_agent.py lines 145-154);
the per-tag map is `tools_used` instead of `errors_by_type`. -/
structure CapMetrics where
  requestsTotal : Nat
  requestsSuccess : Nat
  requestsError : Nat
  totalResponseTime : ℚ
  totalTokens : Nat
  toolsUsed : List (String × Nat)
  requestTimes : List ℚ
deriving DecidableEq, Repr

/-- The capstone collector as built by `MetricsCollector.__init__`. -/
def capMetricsInit : CapMetrics := ⟨0, 0, 0, 0, 0, [], []⟩

/-- Capstone `MetricsCollector.record_request` (capstone_agent.py
lines 156-169): the `tools_used` tag is bumped (when truthy) regardless of
the success flag. -/
def capRecordRequest (s : CapMetrics) (success : Bool) (responseTime : ℚ)
    (tokens : Nat) (toolUsed : Option String) : CapMetrics :=
  { s with
    requestsTotal := s.requestsTotal + 1
    totalResponseTime := s.totalResponseTime + responseTime
    totalTokens := s.totalTokens + tokens
    requestTimes := s.requestTimes ++ [responseTime]
    requestsSuccess := if success then s.requestsSuccess + 1 else s.requestsSuccess
    requestsError := if success then s.requestsError else s.requestsError + 1
    toolsUsed :=
      if toolUsed.getD "" = "" then s.toolsUsed
      else bump s.toolsUsed (toolUsed.getD "") }

/-- Numeric content of the capstone `get_stats` snapshot (no percentiles). -/
structure CapStats where
  totalRequests : Nat
  successRate : ℚ
  avgResponseTime : ℚ
  totalTokens : Nat
  toolsUsed : List (String × Nat)
deriving DecidableEq, Repr

/-- Capstone `MetricsCollector.get_stats` (capstone_agent.py lines 171-186). -/
def capGetStats (s : CapMetrics) : Option CapStats :=
  if s.requestsTotal = 0 then none
  else
    some
      { totalRequests := s.requestsTotal
        successRate := (s.requestsSuccess : ℚ) / (s.requestsTotal : ℚ) * 100
        avgResponseTime := s.totalResponseTime / (s.requestsTotal : ℚ)
        totalTokens := s.totalTokens
        toolsUsed := s.toolsUsed }

/-- State-passing embedding of the capstone `get_stats` (no assignments in
its body). -/
def capGetStatsSt (s : CapMetrics) : Option CapStats × CapMetrics := (capGetStats s, s)

/-- One `record_request` call with its arguments, for reasoning about
arbitrary sequences of calls. -/
structure RecordCall where
  success : Bool
  responseTime : ℚ
  tokens : Nat
  tag : Option String
deriving DecidableEq, Repr

/-- The Day 4 collector after a sequence of `record_request` calls. -/
def d4ApplyCalls (calls : List RecordCall) : D4Metrics :=
  calls.foldl (fun s c => d4RecordRequest s c.success c.responseTime c.tokens c.tag) d4Init

/-- The capstone collector after a sequence of `record_request` calls. -/
def capApplyCalls (calls : List RecordCall) : CapMetrics :=
  calls.foldl (fun s c => capRecordRequest s c.success c.responseTime c.tokens c.tag)
    capMetricsInit

/-- Sum of the per-tag counts of a tag map. -/
def sumCounts (l : List (String × Nat)) : Nat := (l.map (·.2)).sum

/-! ### Calculator tool (capstone_agent.py lines 29-43)

`CalculatorTool.execute` first strips every character outside
`[0-9+\-*/().\s]` (so no letters survive and the `eval` environment's only
name, `math`, is unreachable), then `eval`s the remainder with empty
builtins, catching every exception.  On the sanitized alphabet, Python
`eval` is arithmetic over int/float literals, unary `+`/`-`, the binary
operators `+ - * / // **`, and parentheses; that fragment is modelled below
with floats as rationals.  A non-integral float exponent (whose value is
irrational) is mapped to an error by the model; no claim under study
exercises it. -/

/-- A Python number: `int` or `float` (float values carried exactly as ℚ). -/
inductive PyVal where
  | int (z : ℤ)
  | float (q : ℚ)
deriving DecidableEq, Repr

/-- Numeric value of a Python number. -/
def PyVal.toQ : PyVal → ℚ
  | .int z => (z : ℚ)
  | .float q => q

/-- Whether the value is an `int`. -/
def PyVal.isInt : PyVal → Bool
  | .int _ => true
  | .float _ => false

/-- Python `+` on numbers: int when both are ints, float otherwise. -/
def pyAdd (a b : PyVal) : PyVal :=
  match a, b with
  | .int x, .int y => .int (x + y)
  | _, _ => .float (a.toQ + b.toQ)

/-- Python binary `-` on numbers. -/
def pySub (a b : PyVal) : PyVal :=
  match a, b with
  | .int x, .int y => .int (x - y)
  | _, _ => .float (a.toQ - b.toQ)

/-- Python `*` on numbers. -/
def pyMul (a b : PyVal) : PyVal :=
  match a, b with
  | .int x, .int y => .int (x * y)
  | _, _ => .float (a.toQ * b.toQ)

/-- Python true division `/`: always a float; zero divisor raises
`ZeroDivisionError` (modelled as an error value). -/
def pyDiv (a b : PyVal) : Except String PyVal :=
  if b.toQ = 0 then .error "division by zero"
  else .ok (.float (a.toQ / b.toQ))

/-- Python floor division `//`: floors toward negative infinity; int result
on two ints, float result otherwise. -/
def pyFloorDiv (a b : PyVal) : Except String PyVal :=
  if b.toQ = 0 then .error "integer division or modulo by zero"
  else match a, b with
    | .int x, .int y => .ok (.int (Int.fdiv x y))
    | _, _ => .ok (.float ((⌊a.toQ / b.toQ⌋ : ℤ) : ℚ))

/-- Power with an integer exponent; `resultFloat` records whether either
operand was a float (making the Python result a float). -/
def pyPowNum (a : PyVal) (e : ℤ) (resultFloat : Bool) : Except String PyVal :=
  if 0 ≤ e then
    match a, resultFloat with
    | .int z, false => .ok (.int (z ^ e.toNat))
    | _, _ => .ok (.float (a.toQ ^ e.toNat))
  else if a.toQ = 0 then .error "zero cannot be raised to a negative power"
  else .ok (.float (a.toQ ^ e))

/-- Python `**` restricted to exponents with integral value; a non-integral
float exponent (irrational result) is outside the rational model. -/
def pyPow (a b : PyVal) : Except String PyVal :=
  match b with
  | .int e => pyPowNum a e (!a.isInt)
  | .float qe =>
      if qe.den = 1 then pyPowNum a qe.num true
      else .error "non-integral float exponents are not modelled"

/-- Python unary `-` on numbers. -/
def pyNeg : PyVal → PyVal
  | .int z => .int (-z)
  | .float q => .float (-q)

/-- Tokens of the sanitized arithmetic fragment. -/
inductive Tok where
  | num (v : PyVal)
  | plus | minus | star | slash | dstar | dslash | lpar | rpar
deriving DecidableEq, Repr

/-- Value of a digit run. -/
def digitsToNat (ds : List Char) : Nat :=
  ds.foldl (fun n c => n * 10 + (c.toNat - Char.toNat '0')) 0

/-- Lex one maximal run of digits and dots as a Python number literal: no dot
gives an int, one dot a float, anything else is a syntax error (Python
reaches the same error one step later, at parse time). -/
def lexNum (run : List Char) : Except String PyVal :=
  match (run.filter (· = '.')).length with
  | 0 => .ok (.int (digitsToNat run))
  | 1 =>
      let intPart := run.takeWhile (· ≠ '.')
      let fracPart := (run.dropWhile (· ≠ '.')).drop 1
      if intPart = [] && fracPart = [] then .error "invalid syntax"
      else .ok (.float ((digitsToNat intPart : ℚ) +
        (digitsToNat fracPart : ℚ) / ((10 : ℚ) ^ fracPart.length)))
  | _ => .error "invalid syntax"

/-- Tokenizer over the sanitized alphabet.  Fuel-indexed; every step consumes
at least one character, so `length + 1` fuel always suffices. -/
def tokenizeAux : Nat → List Char → Except String (List Tok)
  | 0, _ => .error "invalid syntax"
  | _ + 1, [] => .ok []
  | fuel + 1, c :: rest =>
    if c.isWhitespace then tokenizeAux fuel rest
    else if c.isDigit || c = '.' then
      let run := (c :: rest).takeWhile fun d => d.isDigit || d = '.'
      let rest' := (c :: rest).dropWhile fun d => d.isDigit || d = '.'
      match lexNum run with
      | .error e => .error e
      | .ok v =>
          match tokenizeAux fuel rest' with
          | .error e => .error e
          | .ok ts => .ok (.num v :: ts)
    else if c = '+' then (tokenizeAux fuel rest).map (.plus :: ·)
    else if c = '-' then (tokenizeAux fuel rest).map (.minus :: ·)
    else if c = '*' then
      match rest with
      | '*' :: rest2 => (tokenizeAux fuel rest2).map (.dstar :: ·)
      | _ => (tokenizeAux fuel rest).map (.star :: ·)
    else if c = '/' then
      match rest with
      | '/' :: rest2 => (tokenizeAux fuel rest2).map (.dslash :: ·)
      | _ => (tokenizeAux fuel rest).map (.slash :: ·)
    else if c = '(' then (tokenizeAux fuel rest).map (.lpar :: ·)
    else if c = ')' then (tokenizeAux fuel rest).map (.rpar :: ·)
    else .error "invalid character"

/-- Tokenize a sanitized character list. -/
def tokenize (s : List Char) : Except String (List Tok) :=
  tokenizeAux (s.length + 1) s

mutual

/-- `expr := term (('+' | '-') term)*`, left-associative. -/
def parseExpr : Nat → List Tok → Except String (PyVal × List Tok)
  | 0, _ => .error "invalid syntax"
  | f + 1, ts => do
      let (v, ts1) ← parseTerm f ts
      parseExprRest f v ts1

/-- Left fold of the additive tail. -/
def parseExprRest : Nat → PyVal → List Tok → Except String (PyVal × List Tok)
  | 0, _, _ => .error "invalid syntax"
  | f + 1, v, .plus :: ts => do
      let (w, ts1) ← parseTerm f ts
      parseExprRest f (pyAdd v w) ts1
  | f + 1, v, .minus :: ts => do
      let (w, ts1) ← parseTerm f ts
      parseExprRest f (pySub v w) ts1
  | _ + 1, v, ts => .ok (v, ts)

/-- `term := factor (('*' | '/' | '//') factor)*`, left-associative. -/
def parseTerm : Nat → List Tok → Except String (PyVal × List Tok)
  | 0, _ => .error "invalid syntax"
  | f + 1, ts => do
      let (v, ts1) ← parseFactor f ts
      parseTermRest f v ts1

/-- Left fold of the multiplicative tail. -/
def parseTermRest : Nat → PyVal → List Tok → Except String (PyVal × List Tok)
  | 0, _, _ => .error "invalid syntax"
  | f + 1, v, .star :: ts => do
      let (w, ts1) ← parseFactor f ts
      parseTermRest f (pyMul v w) ts1
  | f + 1, v, .slash :: ts => do
      let (w, ts1) ← parseFactor f ts
      let r ← pyDiv v w
      parseTermRest f r ts1
  | f + 1, v, .dslash :: ts => do
      let (w, ts1) ← parseFactor f ts
      let r ← pyFloorDiv v w
      parseTermRest f r ts1
  | _ + 1, v, ts => .ok (v, ts)

/-- `factor := ('+' | '-') factor | power` (unary sign binds looser than
`**`, matching Python's `-2**2 = -4`). -/
def parseFactor : Nat → List Tok → Except String (PyVal × List Tok)
  | 0, _ => .error "invalid syntax"
  | f + 1, .plus :: ts => do
      let (v, ts1) ← parseFactor f ts
      .ok (v, ts1)
  | f + 1, .minus :: ts => do
      let (v, ts1) ← parseFactor f ts
      .ok (pyNeg v, ts1)
  | f + 1, ts => parsePower f ts

/-- `power := atom ('**' factor)?`, right-associative exponent. -/
def parsePower : Nat → List Tok → Except String (PyVal × List Tok)
  | 0, _ => .error "invalid syntax"
  | f + 1, ts => do
      let (v, ts1) ← parseAtom f ts
      match ts1 with
      | .dstar :: ts2 => do
          let (w, ts3) ← parseFactor f ts2
          let r ← pyPow v w
          .ok (r, ts3)
      | _ => .ok (v, ts1)

/-- `atom := number | '(' expr ')'`. -/
def parseAtom : Nat → List Tok → Except String (PyVal × List Tok)
  | 0, _ => .error "invalid syntax"
  | _ + 1, .num v :: ts => .ok (v, ts)
  | f + 1, .lpar :: ts => do
      let (v, ts1) ← parseExpr f ts
      match ts1 with
      | .rpar :: ts2 => .ok (v, ts2)
      | _ => .error "invalid syntax"
  | _ + 1, _ => .error "invalid syntax"

end

/-- Python `eval` on a sanitized expression string: tokenize, parse, and
require that every token is consumed.  The fuel bound `8 * n + 8` covers the
at-most-five grammar levels descended per consumed token. -/
def evalArith (s : String) : Except String PyVal := do
  let toks ← tokenize s.data
  let (v, rest) ← parseExpr (8 * toks.length + 8) toks
  if rest = [] then .ok v else .error "invalid syntax"

/-- The character class `[0-9+\-*/().\s]` of capstone_agent.py line 39
(`\s` modelled as space, tab, newline, carriage return). -/
def calcAllowed (c : Char) : Bool :=
  c.isDigit || c = '+' || c = '-' || c = '*' || c = '/' ||
    c = '(' || c = ')' || c = '.' || c.isWhitespace

/-- `re.sub(r'[^0-9+\-*/().\s]', '', expression)`. -/
def sanitize (s : String) : String := ⟨s.data.filter calcAllowed⟩

/-- `f"Result: {result}"`'s rendering of the evaluated number.  Ints print
exactly as in Python; the float case carries the value (Python's float repr
is not modelled further, and no claim reads a float-valued result string). -/
def pyRepr : PyVal → String
  | .int z => toString z
  | .float q => toString q

/-- `CalculatorTool.execute` (capstone_agent.py lines 36-43): sanitize,
evaluate, and catch every evaluation failure as an `Error: ...` string. -/
def calculatorExecute (s : String) : String :=
  match evalArith (sanitize s) with
  | .ok v => "Result: " ++ pyRepr v
  | .error e => "Error: " ++ e

/-! ### String helpers shared by extraction, tools and the orchestrator -/

/-- `str.lower()` for the ASCII strings the repo uses. -/
def pyLower (s : String) : String := ⟨s.data.map Char.toLower⟩

/-- `str.upper()` for the ASCII strings the repo uses. -/
def pyUpper (s : String) : String := ⟨s.data.map Char.toUpper⟩

/-- Whether `needle` matches at the head of `hay`. -/
def strMatch : List Char → List Char → Bool
  | [], _ => true
  | _ :: _, [] => false
  | a :: as, b :: bs => a = b && strMatch as bs

/-- Python's `needle in hay` on strings: contiguous substring containment. -/
def containsSub (hay needle : List Char) : Bool :=
  match hay with
  | [] => strMatch needle []
  | _ :: rest => strMatch needle hay || containsSub rest needle

/-- `needle in hay` lifted to `String`. -/
def pyContains (hay needle : String) : Bool := containsSub hay.data needle.data

/-- `len(t.split())`: number of maximal non-whitespace runs. -/
def pySplitCount (t : String) : Nat :=
  ((t.split Char.isWhitespace).filter (· ≠ "")).length

/-- `", ".join(f"{k}: {v}" for k, v in preferences.items())`. -/
def renderPrefs (prefs : List (String × String)) : String :=
  String.intercalate ", " (prefs.map fun kv => kv.1 ++ ": " ++ kv.2)

/-! ### Preference extraction (Day 3 and capstone variants) -/

/-- `AgentWithLongTermMemory._extract_preference` (long_term_memory.py
lines 145-163): trigger phrases, then the language branch (with no fallback
out of it), then the colour branch with a first-match loop over the fixed
colour list. -/
def d3ExtractPreference (message : String) : Option (String × String) :=
  let ml := pyLower message
  if pyContains ml "i like" || pyContains ml "i prefer" || pyContains ml "my favorite" then
    if pyContains ml "programming" || pyContains ml "language" then
      if pyContains ml "python" then some ("favorite_language", "Python")
      else if pyContains ml "javascript" then some ("favorite_language", "JavaScript")
      else none
    else if pyContains ml "color" then
      (List.find? (fun c => pyContains ml c)
        ["red", "blue", "green", "yellow", "purple", "orange"]).map
        fun c => ("favorite_color", c)
    else none
  else none

/-- `CapstoneAgent._extract_preference` (capstone_agent.py lines 262-272):
only the `i like` / `i prefer` triggers and only the two languages; there is
no colour branch. -/
def capExtractPreference (message : String) : Option (String × String) :=
  let ml := pyLower message
  if pyContains ml "i like" || pyContains ml "i prefer" then
    if pyContains ml "python" then some ("favorite_language", "Python")
    else if pyContains ml "javascript" then some ("favorite_language", "JavaScript")
    else none
  else none

/-! ### Tools and tool selection (capstone_agent.py) -/

/-- `TextProcessorTool.execute` (capstone_agent.py lines 53-65). -/
def textProcessorExecute (text operation : String) : String :=
  if operation = "count_words" then "Word count: " ++ toString (pySplitCount text)
  else if operation = "count_chars" then "Character count: " ++ toString text.length
  else if operation = "reverse" then "Reversed: " ++ (⟨text.data.reverse⟩ : String)
  else if operation = "uppercase" then "Uppercase: " ++ pyUpper text
  else if operation = "lowercase" then "Lowercase: " ++ pyLower text
  else "Unknown operation: " ++ operation

/-- A tool choice with its parameters, as returned by
`CapstoneAgent._select_tool`. -/
inductive ToolSel where
  | calculator (expression : String)
  | textProcessor (text : String) (operation : String)
deriving DecidableEq, Repr

/-- The tool's registry name. -/
def toolName : ToolSel → String
  | .calculator _ => "calculator"
  | .textProcessor _ _ => "text_processor"

/-- Dispatch `self.tools[tool_name].execute(**tool_params)`. -/
def executeTool : ToolSel → String
  | .calculator e => calculatorExecute e
  | .textProcessor t op => textProcessorExecute t op

/-- `CapstoneAgent._select_tool` (capstone_agent.py lines 241-260). -/
def selectToolFn (query : String) : Option ToolSel :=
  let ql := pyLower query
  if ["calculate", "compute", "math", "add", "multiply"].any (fun kw => pyContains ql kw) then
    some (.calculator query)
  else if ["count", "reverse", "uppercase", "lowercase"].any (fun kw => pyContains ql kw) then
    let operation :=
      if pyContains ql "characters" then "count_chars"
      else if pyContains ql "reverse" then "reverse"
      else if pyContains ql "uppercase" then "uppercase"
      else if pyContains ql "lowercase" then "lowercase"
      else "count_words"
    some (.textProcessor query operation)
  else none

/-! ### The capstone orchestrator `CapstoneAgent.chat`
(capstone_agent.py lines 274-348)

External effects are supplied by an oracle: the completion call's outcome
(`model.generate_content` either returns a text or raises), the measured
latency, the durable-write outcome, and the two `datetime.now()` timestamps.
Logging and the `request_id` assignment have no effect on any state the
claims mention and are omitted.  Inside the `try` block the only statement
that can raise is the completion call: preference saving swallows write
errors (`_save_memory`), tool execution catches its own exceptions, and the
remaining statements are list/dict manipulation. -/

/-- Oracle inputs of one `chat` call. -/
structure ChatOracle where
  completion : Except String String
  latency : ℚ
  saveOk : Bool
  userTs : String
  assistantTs : String

/-- Mutable state of a `CapstoneAgent` (capstone_agent.py lines 221-234):
short-term memory (constructed with `max_history=10`), long-term memory,
and the metrics collector. -/
structure AgentState where
  stm : List Msg
  ltm : CapLTM
  metrics : CapMetrics

/-- The agent state as built by `CapstoneAgent.__init__` over a fresh
memory file. -/
def agentInit : AgentState := ⟨[], ⟨[], none⟩, capMetricsInit⟩

/-- `CapstoneAgent.chat` (capstone_agent.py lines 274-348). -/
def capChat (userId : String) (s : AgentState) (message : String) (o : ChatOracle) :
    AgentState × String :=
  let s1 : AgentState :=
    match capExtractPreference message with
    | some (k, v) => { s with ltm := capSavePreference s.ltm userId k v o.saveOk }
    | none => s
  let s2 := { s1 with stm := addMessage 10 s1.stm ⟨"user", message, o.userTs⟩ }
  let context := (getRecentContext s2.stm 3).1
  let pr := capGetUserPreferences s2.ltm userId
  let preferences := pr.1
  let s3 := { s2 with ltm := pr.2 }
  let sel := selectToolFn message
  let toolResult : Option String := sel.map executeTool
  let s4 :=
    match sel with
    | some t => { s3 with metrics := capRecordRequest s3.metrics true 0 0 (some (toolName t)) }
    | none => s3
  let promptParts : List String :=
    (if preferences ≠ [] then ["User preferences: " ++ renderPrefs preferences] else []) ++
    (if context ≠ "" then ["Recent conversation:\n" ++ context] else []) ++
    (match toolResult with
     | some tr => if tr ≠ "" then ["Tool result: " ++ tr] else []
     | none => []) ++
    ["User message: " ++ message]
  let _prompt := String.intercalate "\n\n" promptParts
  match o.completion with
  | .ok responseText =>
      let s5 := { s4 with stm := addMessage 10 s4.stm ⟨"assistant", responseText, o.assistantTs⟩ }
      let estTokens := pySplitCount message + pySplitCount responseText
      let s6 := { s5 with metrics :=
        (capRecordRequest s5.metrics true o.latency estTokens (sel.map toolName)) }
      (s6, responseText)
  | .error e =>
      let s5 := { s4 with metrics := capRecordRequest s4.metrics false o.latency 0 none }
      (s5, "Error: " ++ e)

/-- `ObservableAgent.chat` (observability.py lines 171-228), state restricted
to the metrics collector (the tracer's span list receives one trace on both
paths and is not mentioned by any claim).  The completion call is the only
statement in the `try` block that can raise; on failure Python computes
`error_type = type(e).__name__` and `str(e)`, supplied here as the pair
carried by the `error` case. -/
def obsChat (s : D4Metrics) (message : String)
    (completion : Except (String × String) String) (latency : ℚ) :
    D4Metrics × String :=
  match completion with
  | .ok responseText =>
      let estTokens := pySplitCount message + pySplitCount responseText
      (d4RecordRequest s true latency estTokens none, responseText)
  | .error e =>
      (d4RecordRequest s false latency 0 (some e.1), "Error: " ++ e.2)

/-- A three-entry conversation log used to instantiate universally
quantified statements at a concrete input. -/
def msgs3 : List Msg :=
  [⟨"user", "a", "t1"⟩, ⟨"assistant", "b", "t2"⟩, ⟨"user", "c", "t3"⟩]

/-- The Day 4 collector after recording the five latencies
`[0.1, 0.2, 0.3, 0.4, 0.5]` of the spec's percentile example. -/
def c4Example : D4Metrics :=
  d4ApplyCalls
    [⟨true, 1/10, 0, none⟩, ⟨true, 2/10, 0, none⟩, ⟨true, 3/10, 0, none⟩,
     ⟨true, 4/10, 0, none⟩, ⟨true, 5/10, 0, none⟩]

lemma length_lastN (n : Nat) (l : List α) : (lastN n l).length = min n l.length := by
  simp only [lastN, List.length_drop]
  omega

lemma lastN_of_le {n : Nat} {l : List α} (h : l.length ≤ n) : lastN n l = l := by
  simp [lastN, Nat.sub_eq_zero_of_le h]

lemma lastN_suffix (n : Nat) (l : List α) : lastN n l <:+ l :=
  List.drop_suffix _ _

/-- One step of the trimming invariant: adding a message to a log that is the
last `m*2` entries of `p` yields the last `m*2` entries of `p ++ [x]`,
provided `m ≥ 1` (so the Python slice `h[-m*2:]` really trims). -/
lemma addMessage_lastN (m : Nat) (hm : 1 ≤ m) (p : List Msg) (x : Msg) :
    addMessage m (lastN (m * 2) p) x = lastN (m * 2) (p ++ [x]) := by
  by_cases hlen : m * 2 ≤ p.length
  · have happ : lastN (m * 2) p ++ [x] = (p ++ [x]).drop (p.length - m * 2) := by
      rw [lastN, List.drop_append_of_le_length (by omega)]
    have hL : (lastN (m * 2) p ++ [x]).length = m * 2 + 1 := by
      simp only [List.length_append, List.length_singleton, length_lastN]
      omega
    rw [addMessage, if_pos (by omega), pySliceLast, if_neg (by omega), hL, happ,
      List.drop_drop, lastN]
    congr 1
    simp only [List.length_append, List.length_singleton]
    omega
  · have hp : lastN (m * 2) p = p := lastN_of_le (by omega)
    rw [addMessage, hp,
      if_neg (by simp only [List.length_append, List.length_singleton]; omega)]
    rw [lastN_of_le (by simp only [List.length_append, List.length_singleton]; omega)]

lemma addAll_append_singleton (m : Nat) (msgs : List Msg) (x : Msg) :
    addAll m (msgs ++ [x]) = addMessage m (addAll m msgs) x := by
  simp [addAll, List.foldl_append]

lemma addAll_eq_lastN (m : Nat) (hm : 1 ≤ m) (msgs : List Msg) :
    addAll m msgs = lastN (m * 2) msgs := by
  induction msgs using List.reverseRecOn with
  | nil => simp [addAll, lastN]
  | append_singleton p x ih =>
      rw [addAll_append_singleton, ih, addMessage_lastN m hm]

lemma pySliceLast_eq_lastN {k : Nat} (hk : k ≠ 0) (l : List α) :
    pySliceLast k l = lastN k l := by
  simp [pySliceLast, lastN, hk]

/-- C1.  The claim quantifies over *every* `max_history` value, but for
`max_history = 0` the trimming slice is Python's `h[-0:] = h`, which keeps
everything: after a single append the history has length `1 > 2 × 0`. -/
theorem c1_counterexample :
    ¬ ((addAll 0 [⟨"user", "hi", "t"⟩]).length ≤ 2 * 0) := by
  decide

/-- C1 (amended: for every `max_history ≥ 1`).  For every sequence of
`add_message` calls on a log constructed with `max_history ≥ 1`, the stored
history is exactly the last `min(2 × max_history, total)` appended entries in
their original insertion order — in particular its length never exceeds
`2 × max_history` and it is a contiguous recent slice of the appended
sequence. -/
theorem c1_trim_bound_amended (m : Nat) (msgs : List Msg) (hm : 1 ≤ m) :
    addAll m msgs = lastN (m * 2) msgs ∧
    (addAll m msgs).length ≤ 2 * m ∧
    addAll m msgs <:+ msgs := by
  refine ⟨addAll_eq_lastN m hm msgs, ?_, ?_⟩
  · rw [addAll_eq_lastN m hm msgs, length_lastN]
    omega
  · rw [addAll_eq_lastN m hm msgs]
    exact lastN_suffix _ _

/-- Witness for C1: the amended statement instantiated at `max_history = 1`
and three appended messages. -/
theorem c1_trim_bound_witness :
    addAll 1 msgs3 = lastN (1 * 2) msgs3 ∧
    (addAll 1 msgs3).length ≤ 2 * 1 ∧
    addAll 1 msgs3 <:+ msgs3 :=
  c1_trim_bound_amended 1 msgs3 (by decide)

/-- C5.  The claim quantifies over *every* `num_turns`, but for
`num_turns = 0` the slice is Python's `h[-0:] = h`: on a one-entry log the
query returns the rendering of the whole log, not of the claimed
`min(2 × 0, 1) = 0` entries (which would render as `""`). -/
theorem c5_counterexample :
    (getRecentContext [⟨"user", "hi", "t"⟩] 0).1 ≠ renderContext [] := by
  decide

/-- C5 (amended: for every `num_turns ≥ 1`).  `get_recent_context` never
mutates the log and returns `""` on an empty log; for `num_turns ≥ 1` it
returns the rendering of the last `min(2 × num_turns, length)` stored
entries in original chronological order. -/
theorem c5_recent_context_amended (h : List Msg) (t : Nat) :
    (getRecentContext h t).2 = h ∧
    (h = [] → (getRecentContext h t).1 = "") ∧
    (1 ≤ t → (getRecentContext h t).1 = renderContext (lastN (t * 2) h) ∧
      (lastN (t * 2) h).length = min (t * 2) h.length) := by
  refine ⟨?_, ?_, ?_⟩
  · by_cases hh : h = [] <;> simp [getRecentContext, hh]
  · intro hh; simp [getRecentContext, hh]
  · intro ht
    constructor
    · by_cases hh : h = []
      · subst hh
        simp only [getRecentContext, if_pos rfl, lastN, List.drop_nil]
        rfl
      · rw [getRecentContext, if_neg hh, pySliceLast_eq_lastN (by omega)]
    · exact length_lastN _ _

/-- Witness for C5: the amended statement instantiated at a three-entry log
and `num_turns = 1`. -/
theorem c5_recent_context_witness :
    (getRecentContext msgs3 1).2 = msgs3 ∧
    (getRecentContext msgs3 1).1 = renderContext (lastN (1 * 2) msgs3) ∧
    (lastN (1 * 2) msgs3).length = min (1 * 2) msgs3.length :=
  ⟨(c5_recent_context_amended msgs3 1).1,
   ((c5_recent_context_amended msgs3 1).2.2 (by decide)).1,
   ((c5_recent_context_amended msgs3 1).2.2 (by decide)).2⟩

/-- C6.  On an unseen user, `get_user_preferences` creates the empty record
in the in-memory store, but its body contains no `_save_memory` call: the
durable file is left exactly as it was (here: still nonexistent), so the
creation is *not* persisted. -/
theorem c6_counterexample :
    (d3GetUserPreferences ⟨[], none⟩ "alice" "t0").2.users =
      [("alice", ⟨[], "t0", none⟩)] ∧
    (d3GetUserPreferences ⟨[], none⟩ "alice" "t0").2.fileUsers = none := by
  constructor <;> decide

/-- C6 (amended).  For an unseen user, `get_user_preferences` returns the
empty mapping and appends an empty user record to the in-memory store, but
leaves the durable file untouched; persistence of the record happens only
through a later `save_user_preference` / `_save_memory`. -/
theorem c6_lazy_creation_amended (s : D3State) (uid ts : String)
    (hu : s.users.lookup uid = none) :
    (d3GetUserPreferences s uid ts).1 = [] ∧
    (d3GetUserPreferences s uid ts).2.users = s.users ++ [(uid, ⟨[], ts, none⟩)] ∧
    (d3GetUserPreferences s uid ts).2.fileUsers = s.fileUsers := by
  simp [d3GetUserPreferences, hu]

/-- Witness for C6: the amended statement instantiated at the empty store
and user `"alice"`. -/
theorem c6_lazy_creation_witness :
    (d3GetUserPreferences ⟨[], none⟩ "alice" "t0").1 = [] ∧
    (d3GetUserPreferences ⟨[], none⟩ "alice" "t0").2.users =
      ([] : List (String × D3UserRec)) ++ [("alice", ⟨[], "t0", none⟩)] ∧
    (d3GetUserPreferences ⟨[], none⟩ "alice" "t0").2.fileUsers =
      (D3State.mk [] none).fileUsers :=
  c6_lazy_creation_amended ⟨[], none⟩ "alice" "t0" (by decide)

/-- C9.  The claim covers both `_extract_preference` implementations, but the
capstone agent's version has no colour branch: on
`"My favorite color is blue."` it extracts nothing, not
`("favorite_color", "blue")`. -/
theorem c9_counterexample :
    capExtractPreference "My favorite color is blue." = none := by
  decide

/-- C9 (amended).  Both extraction functions are pure; the Day 3 version
maps `"I like Python programming."` to `("favorite_language", "Python")`,
`"My favorite color is blue."` to `("favorite_color", "blue")`, and
`"I went to the store."` to no extraction, first match winning in declared
order; the capstone version agrees on the first and third inputs but has no
colour triggers and maps the colour input to no extraction. -/
theorem c9_extraction_amended :
    d3ExtractPreference "I like Python programming." = some ("favorite_language", "Python") ∧
    d3ExtractPreference "My favorite color is blue." = some ("favorite_color", "blue") ∧
    d3ExtractPreference "I went to the store." = none ∧
    capExtractPreference "I like Python programming." = some ("favorite_language", "Python") ∧
    capExtractPreference "I went to the store." = none := by
  refine ⟨by decide, by decide, by decide, by decide, by decide⟩

lemma sumCounts_bump (l : List (String × Nat)) (k : String) :
    sumCounts (bump l k) = sumCounts l + 1 := by
  induction l with
  | nil => simp [bump, sumCounts]
  | cons p rest ih =>
      rcases p with ⟨k', n⟩
      by_cases h : k' = k
      · simp [bump, h, sumCounts]
        omega
      · simp only [bump, if_neg h, sumCounts, List.map_cons, List.sum_cons] at ih ⊢
        omega

lemma d4RecordRequest_inv (s : D4Metrics) (b : Bool) (rt : ℚ) (tk : Nat)
    (tg : Option String)
    (h1 : s.requestsTotal = s.requestsSuccess + s.requestsError)
    (h2 : sumCounts s.errorsByType ≤ s.requestsTotal) :
    (d4RecordRequest s b rt tk tg).requestsTotal =
      (d4RecordRequest s b rt tk tg).requestsSuccess +
        (d4RecordRequest s b rt tk tg).requestsError ∧
    sumCounts (d4RecordRequest s b rt tk tg).errorsByType ≤
      (d4RecordRequest s b rt tk tg).requestsTotal := by
  cases b
  · by_cases ht : tg.getD "" = ""
    · simp [d4RecordRequest, ht]
      omega
    · simp [d4RecordRequest, ht, sumCounts_bump]
      omega
  · simp [d4RecordRequest]
    omega

lemma capRecordRequest_inv (s : CapMetrics) (b : Bool) (rt : ℚ) (tk : Nat)
    (tg : Option String)
    (h1 : s.requestsTotal = s.requestsSuccess + s.requestsError)
    (h2 : sumCounts s.toolsUsed ≤ s.requestsTotal) :
    (capRecordRequest s b rt tk tg).requestsTotal =
      (capRecordRequest s b rt tk tg).requestsSuccess +
        (capRecordRequest s b rt tk tg).requestsError ∧
    sumCounts (capRecordRequest s b rt tk tg).toolsUsed ≤
      (capRecordRequest s b rt tk tg).requestsTotal := by
  by_cases ht : tg.getD "" = "" <;> cases b <;>
    simp [capRecordRequest, ht, sumCounts_bump] <;> omega

lemma d4_foldl_inv (calls : List RecordCall) :
    ∀ s : D4Metrics,
      s.requestsTotal = s.requestsSuccess + s.requestsError →
      sumCounts s.errorsByType ≤ s.requestsTotal →
      (calls.foldl (fun s c => d4RecordRequest s c.success c.responseTime c.tokens c.tag)
          s).requestsTotal =
        (calls.foldl (fun s c => d4RecordRequest s c.success c.responseTime c.tokens c.tag)
          s).requestsSuccess +
        (calls.foldl (fun s c => d4RecordRequest s c.success c.responseTime c.tokens c.tag)
          s).requestsError ∧
      sumCounts
        (calls.foldl (fun s c => d4RecordRequest s c.success c.responseTime c.tokens c.tag)
          s).errorsByType ≤
        (calls.foldl (fun s c => d4RecordRequest s c.success c.responseTime c.tokens c.tag)
          s).requestsTotal := by
  induction calls with
  | nil => intro s h1 h2; exact ⟨h1, h2⟩
  | cons c rest ih =>
      intro s h1 h2
      simp only [List.foldl_cons]
      have step := d4RecordRequest_inv s c.success c.responseTime c.tokens c.tag h1 h2
      exact ih _ step.1 step.2

lemma cap_foldl_inv (calls : List RecordCall) :
    ∀ s : CapMetrics,
      s.requestsTotal = s.requestsSuccess + s.requestsError →
      sumCounts s.toolsUsed ≤ s.requestsTotal →
      (calls.foldl (fun s c => capRecordRequest s c.success c.responseTime c.tokens c.tag)
          s).requestsTotal =
        (calls.foldl (fun s c => capRecordRequest s c.success c.responseTime c.tokens c.tag)
          s).requestsSuccess +
        (calls.foldl (fun s c => capRecordRequest s c.success c.responseTime c.tokens c.tag)
          s).requestsError ∧
      sumCounts
        (calls.foldl (fun s c => capRecordRequest s c.success c.responseTime c.tokens c.tag)
          s).toolsUsed ≤
        (calls.foldl (fun s c => capRecordRequest s c.success c.responseTime c.tokens c.tag)
          s).requestsTotal := by
  induction calls with
  | nil => intro s h1 h2; exact ⟨h1, h2⟩
  | cons c rest ih =>
      intro s h1 h2
      simp only [List.foldl_cons]
      have step := capRecordRequest_inv s c.success c.responseTime c.tokens c.tag h1 h2
      exact ih _ step.1 step.2

/-- C7.  After every sequence of `record_request` calls on either metrics
collector (the Day 4 one with `errors_by_type`, the capstone one with
`tools_used`), `requests_total = requests_success + requests_error` and the
per-tag counts sum to at most `requests_total`. -/
theorem c7_metrics_invariant (calls : List RecordCall) :
    ((d4ApplyCalls calls).requestsTotal =
      (d4ApplyCalls calls).requestsSuccess + (d4ApplyCalls calls).requestsError ∧
     sumCounts (d4ApplyCalls calls).errorsByType ≤ (d4ApplyCalls calls).requestsTotal) ∧
    ((capApplyCalls calls).requestsTotal =
      (capApplyCalls calls).requestsSuccess + (capApplyCalls calls).requestsError ∧
     sumCounts (capApplyCalls calls).toolsUsed ≤ (capApplyCalls calls).requestsTotal) :=
  ⟨d4_foldl_inv calls d4Init rfl (by decide),
   cap_foldl_inv calls capMetricsInit rfl (by decide)⟩

/-- C10.  Both `get_stats` methods are read-only and deterministic: the
state-passing embedding of either body returns the collector state
unchanged (counters, per-tag counts and the raw-latency list included), and
a second call with no intervening `record_request` returns an equal
snapshot. -/
theorem c10_get_stats_readonly (s : D4Metrics) (t : CapMetrics) :
    (d4GetStatsSt s).2 = s ∧
    (d4GetStatsSt s).2.requestsTotal = s.requestsTotal ∧
    (d4GetStatsSt s).2.errorsByType = s.errorsByType ∧
    (d4GetStatsSt s).2.requestTimes = s.requestTimes ∧
    (d4GetStatsSt (d4GetStatsSt s).2).1 = (d4GetStatsSt s).1 ∧
    (capGetStatsSt t).2 = t ∧
    (capGetStatsSt t).2.toolsUsed = t.toolsUsed ∧
    (capGetStatsSt (capGetStatsSt t).2).1 = (capGetStatsSt t).1 :=
  ⟨rfl, rfl, rfl, rfl, rfl, rfl, rfl, rfl⟩

/-- C2.  The claim says exactly one metrics sample per request whether or not
a tool was selected; but on a tool-selecting message `chat` records once at
the tool invocation (line 304) and once more for the request outcome
(line 333 or 344): starting from a fresh agent, one chat on
`"calculate 2 + 2"` leaves `requests_total = 2`, not `1`. -/
theorem c2_counterexample :
    agentInit.metrics.requestsTotal = 0 ∧
    (capChat "default" agentInit "calculate 2 + 2"
      ⟨.ok "It is 4.", 1, true, "t1", "t2"⟩).1.metrics.requestsTotal = 2 := by
  constructor <;> decide

/-- C2 (amended).  Per incoming message, the capstone `chat` increases the
aggregator's total request count by exactly 1 when no tool is selected and
by exactly 2 when a tool is selected (one sample for the tool invocation
plus one for the request outcome), whether or not the completion call
succeeds. -/
theorem c2_metrics_per_request_amended (userId : String) (s : AgentState)
    (message : String) (o : ChatOracle) :
    (capChat userId s message o).1.metrics.requestsTotal =
      s.metrics.requestsTotal + (if (selectToolFn message).isSome then 2 else 1) := by
  rcases hE : capExtractPreference message with _ | ⟨k, v⟩ <;>
    rcases hT : selectToolFn message with _ | tsel <;>
    rcases hC : o.completion with e | r <;>
    simp [capChat, hE, hT, hC, capRecordRequest]

/-- C3.  For every input message, agent state and completion outcome, `chat`
returns normally with a text: the completion reply on success, and on any
completion-call failure the textual `"Error: ..."` message together with
exactly one recorded failure sample (`requests_error` grows by 1); tool
failures are already recovered inside the tool's `execute` and storage
failures inside `_save_memory`.  The same holds for the Day 4
`ObservableAgent.chat`. -/
theorem c3_chat_total_error_recovery (userId : String) (s : AgentState)
    (message : String) (o : ChatOracle) (t : D4Metrics) (message2 : String)
    (comp : Except (String × String) String) (lat : ℚ) :
    ((capChat userId s message o).2 =
      match o.completion with
      | .ok r => r
      | .error e => "Error: " ++ e) ∧
    ((capChat userId s message o).1.metrics.requestsError =
      s.metrics.requestsError +
        match o.completion with
        | .ok _ => 0
        | .error _ => 1) ∧
    ((obsChat t message2 comp lat).2 =
      match comp with
      | .ok r => r
      | .error e => "Error: " ++ e.2) ∧
    ((obsChat t message2 comp lat).1.requestsError =
      t.requestsError +
        match comp with
        | .ok _ => 0
        | .error _ => 1) := by
  refine ⟨?_, ?_, ?_, ?_⟩ <;>
    [skip; skip;
     rcases comp with e | r <;> simp [obsChat, d4RecordRequest];
     rcases comp with e | r <;> simp [obsChat, d4RecordRequest]] <;>
    rcases hE : capExtractPreference message with _ | ⟨k, v⟩ <;>
    rcases hT : selectToolFn message with _ | tsel <;>
    rcases hC : o.completion with e | r <;>
    simp [capChat, hE, hT, hC, capRecordRequest]

/-- C8.  The calculator tool's result depends only on the sanitized text
(every character outside `[0-9+\-*/().\s]` is stripped before evaluation);
`"Calculate 25 * 4 + 10"` evaluates to `"Result: 110"`; every input produces
either a `"Result: ..."` or an `"Error: ..."` string and never a raised
exception — in particular an input with no valid characters after
sanitization and a division by zero both yield error-tagged text. -/
theorem c8_calculator :
    calculatorExecute "Calculate 25 * 4 + 10" = "Result: 110" ∧
    (∀ s t : String, sanitize s = sanitize t → calculatorExecute s = calculatorExecute t) ∧
    (∀ s : String, (∃ r, calculatorExecute s = "Result: " ++ r) ∨
      (∃ e, calculatorExecute s = "Error: " ++ e)) ∧
    calculatorExecute "What?" = "Error: invalid syntax" ∧
    calculatorExecute "10/0" = "Error: division by zero" := by
  refine ⟨by decide, ?_, ?_, by decide, by decide⟩
  · intro s t h
    simp only [calculatorExecute, h]
  · intro s
    cases hv : evalArith (sanitize s) with
    | error e => exact Or.inr ⟨e, by simp [calculatorExecute, hv]⟩
    | ok v => exact Or.inl ⟨pyRepr v, by simp [calculatorExecute, hv]⟩

/-- Witness for C8: the sanitize-invariance part instantiated at the example
input and its pre-sanitized form. -/
theorem c8_calculator_witness :
    calculatorExecute "Calculate 25 * 4 + 10" = calculatorExecute " 25 * 4 + 10" :=
  c8_calculator.2.1 "Calculate 25 * 4 + 10" " 25 * 4 + 10" (by decide)

/-- C4.  `get_stats` computes `p50` as the ascending-sorted latency list at
index `len // 2` and `p95` at index `int(len * 0.95) = ⌊19·len/20⌋`; for the
recorded latencies `[0.1, 0.2, 0.3, 0.4, 0.5]` this gives `p50 = 0.3` and
`p95 = 0.5`; a single recorded latency is its own `p50` and `p95`, and with
no retained latencies the guard yields `0`. -/
lemma d4GetStats_percentiles (s : D4Metrics) (h0 : s.requestsTotal ≠ 0)
    (hne : s.requestTimes ≠ []) :
    (d4GetStats s).map D4Stats.p50 =
      some ((pySort s.requestTimes).getD (s.requestTimes.length / 2) 0) ∧
    (d4GetStats s).map D4Stats.p95 =
      some ((pySort s.requestTimes).getD (19 * s.requestTimes.length / 20) 0) := by
  have hlen : (pySort s.requestTimes).length = s.requestTimes.length :=
    List.length_insertionSort _ _
  have hsne : pySort s.requestTimes ≠ [] := by
    intro hc
    exact hne (List.length_eq_zero.mp (by rw [← hlen, hc, List.length_nil]))
  constructor <;> simp [d4GetStats, h0, hsne, hlen, p95Index, List.getD]

theorem c4_percentile_convention :
    (∀ s : D4Metrics, s.requestsTotal ≠ 0 → s.requestTimes ≠ [] →
      (d4GetStats s).map D4Stats.p50 =
        some ((pySort s.requestTimes).getD (s.requestTimes.length / 2) 0) ∧
      (d4GetStats s).map D4Stats.p95 =
        some ((pySort s.requestTimes).getD (19 * s.requestTimes.length / 20) 0)) ∧
    ((d4GetStats c4Example).map D4Stats.p50 = some (3/10) ∧
     (d4GetStats c4Example).map D4Stats.p95 = some (1/2)) ∧
    (∀ x : ℚ, (d4GetStats (d4RecordRequest d4Init true x 0 none)).map D4Stats.p50 = some x ∧
      (d4GetStats (d4RecordRequest d4Init true x 0 none)).map D4Stats.p95 = some x) ∧
    (∀ s : D4Metrics, s.requestsTotal ≠ 0 → s.requestTimes = [] →
      (d4GetStats s).map D4Stats.p50 = some 0 ∧
      (d4GetStats s).map D4Stats.p95 = some 0) := by
  have hTimes : c4Example.requestTimes = [1/10, 1/5, 3/10, 2/5, 1/2] := by
    simp [c4Example, d4ApplyCalls, d4RecordRequest, d4Init]
    norm_num
  have hSorted : pySort [1/10, 1/5, 3/10, 2/5, 1/2] =
      [(1 : ℚ)/10, 1/5, 3/10, 2/5, 1/2] := by
    apply List.Sorted.insertionSort_eq
    norm_num [List.sorted_cons]
  refine ⟨fun s h0 hne => d4GetStats_percentiles s h0 hne, ?_, ?_, ?_⟩
  · have h := d4GetStats_percentiles c4Example (by decide) (by decide)
    constructor
    · rw [h.1, hTimes, hSorted]
      norm_num
    · rw [h.2, hTimes, hSorted]
      norm_num
  · intro x
    have h1 : (d4RecordRequest d4Init true x 0 none).requestTimes = [x] := by
      simp [d4RecordRequest, d4Init]
    have h2 : (d4RecordRequest d4Init true x 0 none).requestsTotal = 1 := by
      simp [d4RecordRequest, d4Init]
    constructor <;> simp [d4GetStats, h1, h2, pySort, List.insertionSort,
      List.orderedInsert, p95Index, List.getD]
  · intro s h0 h2
    constructor <;> simp [d4GetStats, h0, h2, pySort, List.insertionSort]

/-- Witness for C4: the general indexing part instantiated at the
five-latency example state. -/
theorem c4_percentile_witness :
    (d4GetStats c4Example).map D4Stats.p50 =
      some ((pySort c4Example.requestTimes).getD (c4Example.requestTimes.length / 2) 0) ∧
    (d4GetStats c4Example).map D4Stats.p95 =
      some ((pySort c4Example.requestTimes).getD (19 * c4Example.requestTimes.length / 20) 0) :=
  c4_percentile_convention.1 c4Example (by decide) (by decide)

